import Mathlib

set_option linter.unusedVariables false

/-!
Shallow embedding of `src/async_gpib/async_gpib.py` (pyAsyncGpib): an asyncio
facade around the blocking Linux GPIB / gpib_ctypes driver.

Driver durations are modelled as rationals (seconds).  The discrete timeout
codes and the status bitmask constants come from the external `gpib` library
(linux-gpib / gpib_ctypes); they are opaque integers whose only relevant
structure is identity, so we carry their standard numeric values.
-/

namespace AsyncGpibSpec

/-! ## Constants of the external `gpib` library -/

/-- Models `gpib.TNONE`: the dedicated "no timeout" code of the external driver. -/
def TNONE : Nat := 0

def T10us : Nat := 1
def T30us : Nat := 2
def T100us : Nat := 3
def T300us : Nat := 4
def T1ms : Nat := 5
def T3ms : Nat := 6
def T10ms : Nat := 7
def T30ms : Nat := 8
def T100ms : Nat := 9
def T300ms : Nat := 10
def T1s : Nat := 11
def T3s : Nat := 12
def T10s : Nat := 13
def T30s : Nat := 14
def T100s : Nat := 15
def T300s : Nat := 16
def T1000s : Nat := 17

/-- Models `Gpib.TIMO`: the timeout bit of the ibsta status bitmask. -/
def TIMO : Nat := 0x4000

/-- The `TIMEOUT_VALUES` table of `async_gpib.py` (lines 26-44): a dict from
driver timeout code to the duration in seconds it represents, in insertion
(ascending) order.  A Python dict iterates in insertion order, so a list of
pairs is a faithful model. -/
def TIMEOUT_VALUES : List (Nat × ℚ) :=
  [(T10us, 10 / 1000000),
   (T30us, 30 / 1000000),
   (T100us, 100 / 1000000),
   (T300us, 300 / 1000000),
   (T1ms, 1 / 1000),
   (T3ms, 3 / 1000),
   (T10ms, 10 / 1000),
   (T30ms, 30 / 1000),
   (T100ms, 100 / 1000),
   (T300ms, 300 / 1000),
   (T1s, 1),
   (T3s, 3),
   (T10s, 10),
   (T30s, 30),
   (T100s, 100),
   (T300s, 300),
   (T1000s, 1000)]

/-- The `for key, value in TIMEOUT_VALUES.items(): if value >= timeout: return key`
loop of `_calculate_timeout_value` (lines 62-65), with the final
`return gpib.T1000s` as the fall-through case. -/
def timeout_loop (timeout : ℚ) : List (Nat × ℚ) → Nat
  | [] => T1000s
  | (key, value) :: rest => if value ≥ timeout then key else timeout_loop timeout rest

/-- Models `_calculate_timeout_value` (lines 59-65): `None` maps to `gpib.TNONE`,
otherwise scan the table for the first entry representing at least the
requested duration, falling back to `gpib.T1000s`. -/
def calculate_timeout_value : Option ℚ → Nat
  | none => TNONE
  | some timeout => timeout_loop timeout TIMEOUT_VALUES

/-- The duration (in seconds) represented by a timeout code, read off the
`TIMEOUT_VALUES` table (0 for codes not in the table, e.g. `TNONE`). -/
def code_duration (code : Nat) : ℚ :=
  match TIMEOUT_VALUES.find? (fun p => p.1 == code) with
  | some p => p.2
  | none => 0

/-! ## Data model of the facade -/

/-- The `name` constructor argument: either a board index or a board name
(`int | str` in the source). -/
inductive BoardId where
  | num (n : Int)
  | str (s : String)
deriving DecidableEq

/-- A `Gpib.Gpib(...)` driver handle, as constructed by `connect` (line 161):
it records exactly the construction arguments; its runtime behaviour (call
outcomes, ibsta values) is supplied by oracle parameters at each call site
since the driver is an external collaborator. -/
structure GpibHandle where
  name : BoardId
  pad : Option Int
  sad : Int
  timeout : Nat
  send_eoi : Bool
  eos_mode : Nat
deriving DecidableEq

/-- A `concurrent.futures.ThreadPoolExecutor(max_workers=1)` (line 162),
recorded by its construction argument. -/
structure ThreadPoolExecutor where
  max_workers : Nat
deriving DecidableEq

/-- A `gpib.GpibError` raised by a driver call; the payload stands for the
identity of the exception object, so that re-raising "the exact failure" is
expressible as payload equality. -/
structure GpibError where
  code : Nat
deriving DecidableEq

/-- The failures a facade coroutine can raise: `asyncio.TimeoutError(msg)`,
a re-raised `gpib.GpibError`, or the `AssertionError` of a failed
`assert self.__device is not None` / `assert self.__threadpool is not None`. -/
inductive FacadeError where
  | timeoutError (msg : String)
  | gpibError (e : GpibError)
  | assertionError
deriving DecidableEq

/-- The instance attributes of an `AsyncGpib` object (set in `__init__`,
lines 134-142): identity, session configuration, and the optional driver
handle and thread pool. -/
structure AsyncGpibState where
  name : BoardId
  pad : Option Int
  sad : Int
  timeout : Nat
  send_eoi : Bool
  eos_mode : Nat
  device : Option GpibHandle
  threadpool : Option ThreadPoolExecutor
deriving DecidableEq

/-- Teardown actions issued against the driver handle / thread pool by a
lifecycle operation, in order: the `ibonl`-style `self.__device.close` driver
call and the `self.__threadpool.shutdown` call. -/
inductive TeardownCall where
  | device_close
  | pool_shutdown
deriving DecidableEq

namespace AsyncGpib

/-- Models `AsyncGpib.__init__` (lines 107-145): store identity and the session
configuration snapshot; the timeout is quantized immediately, the EOS
character byte (default NUL) is or-ed with the EOS mode bitmask; device and
threadpool start absent. -/
def init (name : BoardId) (pad : Option Int) (sad : Int) (timeout : Option ℚ)
    (send_eoi : Bool) (eos_mode : Nat) (eos_character : Option Nat) : AsyncGpibState :=
  let eos_char := eos_character.getD 0
  { name := name
    pad := pad
    sad := sad
    timeout := calculate_timeout_value timeout
    send_eoi := send_eoi
    eos_mode := eos_char ||| eos_mode
    device := none
    threadpool := none }

/-- The `id` property (lines 73-82): returns `self.__name`. -/
def id (s : AsyncGpibState) : BoardId := s.name

/-- The `pad` property (lines 84-92): returns `self.__pad`. -/
def pad (s : AsyncGpibState) : Option Int := s.pad

/-- The `sad` property (lines 94-102): returns `self.__sad`. -/
def sad (s : AsyncGpibState) : Int := s.sad

/-- Models `AsyncGpib.connect` (lines 156-162): unconditionally build a fresh
`Gpib.Gpib` handle from the stored configuration and a fresh single-worker
thread pool, overwriting both references.  The second component is the list
of teardown calls issued against the previously stored handle/pool: the
source issues none. -/
def connect (s : AsyncGpibState) : AsyncGpibState × List TeardownCall :=
  ({ s with
      device := some
        { name := s.name, pad := s.pad, sad := s.sad, timeout := s.timeout,
          send_eoi := s.send_eoi, eos_mode := s.eos_mode }
      threadpool := some { max_workers := 1 } },
   [])

/-- Models `AsyncGpib.__wrapper` (lines 170-184): assert the device exists, run the
driver call; on `gpib.GpibError` read `self.__device.ibsta()` and raise
`asyncio.TimeoutError()` if the timeout bit is set, else re-raise the original
error.  `outcome` is the oracle for the driver call's result and `ibsta_after`
the oracle for the status read performed in the except branch. -/
def wrapper {α : Type} (device : Option GpibHandle) (outcome : Except GpibError α)
    (ibsta_after : Nat) : Except FacadeError α :=
  match device with
  | none => .error .assertionError
  | some _ =>
    match outcome with
    | .ok v => .ok v
    | .error e =>
      if ibsta_after &&& TIMO ≠ 0 then .error (.timeoutError "") else .error (.gpibError e)

/-- Models `AsyncGpib.close` (lines 186-203): assert device and threadpool exist,
submit `self.__device.close` through the wrapper; if it raised, the exception
propagates before the try/finally block (device and threadpool keep their
values); otherwise shut the pool down and clear both references.  The last
component lists the teardown calls that were issued. -/
def close (s : AsyncGpibState) (close_outcome : Except GpibError Unit) (ibsta_after : Nat) :
    AsyncGpibState × Except FacadeError Unit × List TeardownCall :=
  match s.device with
  | none => (s, .error .assertionError, [])
  | some _ =>
    match s.threadpool with
    | none => (s, .error .assertionError, [])
    | some _ =>
      match wrapper s.device close_outcome ibsta_after with
      | .error e => (s, .error e, [.device_close])
      | .ok _ =>
        ({ s with device := none, threadpool := none }, .ok (),
         [.device_close, .pool_shutdown])

/-- Models `AsyncGpib.disconnect` (lines 164-168): an alias for `close`. -/
def disconnect (s : AsyncGpibState) (close_outcome : Except GpibError Unit)
    (ibsta_after : Nat) : AsyncGpibState × Except FacadeError Unit × List TeardownCall :=
  close s close_outcome ibsta_after

/-- Models `AsyncGpib.command` (lines 205-221): assert the device exists, then run
`self.__device.command(cmd)` through the wrapper. -/
def command (s : AsyncGpibState) (cmd : List Nat) (outcome : Except GpibError Unit)
    (ibsta_after : Nat) : Except FacadeError Unit :=
  match s.device with
  | none => .error .assertionError
  | some _ => wrapper s.device outcome ibsta_after

/-- Models `AsyncGpib.config` (lines 223-246): assert the device exists, then run
`self.__device.config(option, value)` through the wrapper. -/
def config (s : AsyncGpibState) (option : Nat) (value : Int)
    (outcome : Except GpibError Int) (ibsta_after : Nat) : Except FacadeError Int :=
  match s.device with
  | none => .error .assertionError
  | some _ => wrapper s.device outcome ibsta_after

/-- Models `AsyncGpib.interface_clear` (lines 248-259): assert the device exists,
then run `self.__device.interface_clear()` through the wrapper. -/
def interface_clear (s : AsyncGpibState) (outcome : Except GpibError Unit)
    (ibsta_after : Nat) : Except FacadeError Unit :=
  match s.device with
  | none => .error .assertionError
  | some _ => wrapper s.device outcome ibsta_after

/-- Models `AsyncGpib.write` (lines 261-278): assert the device exists, then run
`self.__device.write(command)` through the wrapper (the debug log call has no
observable effect on the result). -/
def write (s : AsyncGpibState) (command : List Nat) (outcome : Except GpibError Unit)
    (ibsta_after : Nat) : Except FacadeError Unit :=
  match s.device with
  | none => .error .assertionError
  | some _ => wrapper s.device outcome ibsta_after

/-- Models `AsyncGpib.read` (lines 280-303): assert the device exists, run
`self.__device.read(length)` through the wrapper and return the bytes
unchanged. -/
def read (s : AsyncGpibState) (length : Nat) (outcome : Except GpibError (List Nat))
    (ibsta_after : Nat) : Except FacadeError (List Nat) :=
  match s.device with
  | none => .error .assertionError
  | some _ => wrapper s.device outcome ibsta_after

/-- Models `AsyncGpib.listener` (lines 305-328): assert the device exists, then run
`self.__device.listener(pad, sad)` through the wrapper. -/
def listener (s : AsyncGpibState) (pad : Int) (sad : Int)
    (outcome : Except GpibError Bool) (ibsta_after : Nat) : Except FacadeError Bool :=
  match s.device with
  | none => .error .assertionError
  | some _ => wrapper s.device outcome ibsta_after

/-- Models `AsyncGpib.lines` (lines 330-346): assert the device exists, then run
`self.__device.lines()` through the wrapper. -/
def lines (s : AsyncGpibState) (outcome : Except GpibError Int)
    (ibsta_after : Nat) : Except FacadeError Int :=
  match s.device with
  | none => .error .assertionError
  | some _ => wrapper s.device outcome ibsta_after

/-- Models `AsyncGpib.ask` (lines 348-369): assert the device exists, then run
`self.__device.ask(option)` through the wrapper. -/
def ask (s : AsyncGpibState) (option : Nat) (outcome : Except GpibError Int)
    (ibsta_after : Nat) : Except FacadeError Int :=
  match s.device with
  | none => .error .assertionError
  | some _ => wrapper s.device outcome ibsta_after

/-- Models `AsyncGpib.clear` (lines 371-377): assert the device exists, then run
`self.__device.clear()` through the wrapper. -/
def clear (s : AsyncGpibState) (outcome : Except GpibError Unit)
    (ibsta_after : Nat) : Except FacadeError Unit :=
  match s.device with
  | none => .error .assertionError
  | some _ => wrapper s.device outcome ibsta_after

/-- Models `AsyncGpib.wait` (lines 379-399): assert the device exists, run
`self.__device.wait(eventmask)` through the wrapper, then read back
`self.__device.ibsta()` through the wrapper; if the returned status has the
timeout bit set, raise `asyncio.TimeoutError("Timeout waiting for event.")`.
Oracles: `wait_outcome`/`st_after_wait` for the first driver call and the
status read of its except branch, `ibsta_outcome`/`st_after_ibsta` for the
second. -/
def wait (s : AsyncGpibState) (eventmask : Nat)
    (wait_outcome : Except GpibError Unit) (st_after_wait : Nat)
    (ibsta_outcome : Except GpibError Nat) (st_after_ibsta : Nat) : Except FacadeError Unit :=
  match s.device with
  | none => .error .assertionError
  | some _ =>
    match wrapper s.device wait_outcome st_after_wait with
    | .error e => .error e
    | .ok _ =>
      match wrapper s.device ibsta_outcome st_after_ibsta with
      | .error e => .error e
      | .ok ibsta_value =>
        if ibsta_value &&& TIMO ≠ 0 then .error (.timeoutError "Timeout waiting for event.")
        else .ok ()

/-- Models `AsyncGpib.serial_poll` (lines 401-417): assert the device exists, then
run `self.__device.serial_poll()` through the wrapper. -/
def serial_poll (s : AsyncGpibState) (outcome : Except GpibError Int)
    (ibsta_after : Nat) : Except FacadeError Int :=
  match s.device with
  | none => .error .assertionError
  | some _ => wrapper s.device outcome ibsta_after

/-- Models `AsyncGpib.trigger` (lines 419-430): assert the device exists, then run
`self.__device.trigger()` through the wrapper. -/
def trigger (s : AsyncGpibState) (outcome : Except GpibError Unit)
    (ibsta_after : Nat) : Except FacadeError Unit :=
  match s.device with
  | none => .error .assertionError
  | some _ => wrapper s.device outcome ibsta_after

/-- Models `AsyncGpib.remote_enable` (lines 432-448): assert the device exists, then
run `self.__device.remote_enable(bool(enable))` through the wrapper. -/
def remote_enable (s : AsyncGpibState) (enable : Bool)
    (outcome : Except GpibError Unit) (ibsta_after : Nat) : Except FacadeError Unit :=
  match s.device with
  | none => .error .assertionError
  | some _ => wrapper s.device outcome ibsta_after

/-- Models `AsyncGpib.ibloc` (lines 450-466): assert the device exists, then run
`self.__device.ibloc()` through the wrapper. -/
def ibloc (s : AsyncGpibState) (outcome : Except GpibError Int)
    (ibsta_after : Nat) : Except FacadeError Int :=
  match s.device with
  | none => .error .assertionError
  | some _ => wrapper s.device outcome ibsta_after

/-- Models `AsyncGpib.ibsta` (lines 468-484): assert the device exists, then run
`self.__device.ibsta()` through the wrapper. -/
def ibsta (s : AsyncGpibState) (outcome : Except GpibError Int)
    (ibsta_after : Nat) : Except FacadeError Int :=
  match s.device with
  | none => .error .assertionError
  | some _ => wrapper s.device outcome ibsta_after

/-- Models `AsyncGpib.ibcnt` (lines 486-502): assert the device exists, then run
`self.__device.ibcnt()` through the wrapper. -/
def ibcnt (s : AsyncGpibState) (outcome : Except GpibError Int)
    (ibsta_after : Nat) : Except FacadeError Int :=
  match s.device with
  | none => .error .assertionError
  | some _ => wrapper s.device outcome ibsta_after

/-- Models `AsyncGpib.timeout` (lines 504-527): assert the device exists, then run
`self.__device.timeout(_calculate_timeout_value(value))` through the
wrapper. -/
def timeout (s : AsyncGpibState) (value : Option ℚ)
    (outcome : Except GpibError Int) (ibsta_after : Nat) : Except FacadeError Int :=
  match s.device with
  | none => .error .assertionError
  | some _ => wrapper s.device outcome ibsta_after

/-- Models `AsyncGpib.version` (lines 529-539): a `@staticmethod` that returns
`gpib.version().decode("utf-8")` without touching the instance — it performs
no device check, so the state parameter is unused.  `library_version` is the
oracle for the external library's version string. -/
def version (s : AsyncGpibState) (library_version : String) : Except FacadeError String :=
  .ok library_version

end AsyncGpib

/-! ## Operation sequences

To state frame properties ("after any sequence of facade operations …") we
package one invocation of each public coroutine, together with the driver
oracles it consumes, as a `FacadeOp`, and fold them over the state.  Only
`connect`, `close` and `disconnect` assign instance attributes in the source;
every other method reads `self.__device` and the oracles but assigns
nothing, so it leaves the state unchanged. -/

inductive FacadeOp where
  | connect
  | disconnect (outcome : Except GpibError Unit) (ibsta_after : Nat)
  | close (outcome : Except GpibError Unit) (ibsta_after : Nat)
  | command (cmd : List Nat) (outcome : Except GpibError Unit) (ibsta_after : Nat)
  | config (option : Nat) (value : Int) (outcome : Except GpibError Int) (ibsta_after : Nat)
  | interface_clear (outcome : Except GpibError Unit) (ibsta_after : Nat)
  | write (command : List Nat) (outcome : Except GpibError Unit) (ibsta_after : Nat)
  | read (length : Nat) (outcome : Except GpibError (List Nat)) (ibsta_after : Nat)
  | listener (pad : Int) (sad : Int) (outcome : Except GpibError Bool) (ibsta_after : Nat)
  | lines (outcome : Except GpibError Int) (ibsta_after : Nat)
  | ask (option : Nat) (outcome : Except GpibError Int) (ibsta_after : Nat)
  | clear (outcome : Except GpibError Unit) (ibsta_after : Nat)
  | wait (eventmask : Nat) (wait_outcome : Except GpibError Unit) (st_after_wait : Nat)
      (ibsta_outcome : Except GpibError Nat) (st_after_ibsta : Nat)
  | serial_poll (outcome : Except GpibError Int) (ibsta_after : Nat)
  | trigger (outcome : Except GpibError Unit) (ibsta_after : Nat)
  | remote_enable (enable : Bool) (outcome : Except GpibError Unit) (ibsta_after : Nat)
  | ibloc (outcome : Except GpibError Int) (ibsta_after : Nat)
  | ibsta (outcome : Except GpibError Int) (ibsta_after : Nat)
  | ibcnt (outcome : Except GpibError Int) (ibsta_after : Nat)
  | timeout (value : Option ℚ) (outcome : Except GpibError Int) (ibsta_after : Nat)
  | version (library_version : String)

/-- The state after one facade operation.  `connect`, `close` and
`disconnect` are the only methods of the source that assign instance
attributes; all others leave the instance unchanged. -/
def step (s : AsyncGpibState) : FacadeOp → AsyncGpibState
  | .connect => (AsyncGpib.connect s).1
  | .disconnect o st => (AsyncGpib.disconnect s o st).1
  | .close o st => (AsyncGpib.close s o st).1
  | .command _ _ _ => s
  | .config _ _ _ _ => s
  | .interface_clear _ _ => s
  | .write _ _ _ => s
  | .read _ _ _ => s
  | .listener _ _ _ _ => s
  | .lines _ _ => s
  | .ask _ _ _ => s
  | .clear _ _ => s
  | .wait _ _ _ _ _ => s
  | .serial_poll _ _ => s
  | .trigger _ _ => s
  | .remote_enable _ _ _ => s
  | .ibloc _ _ => s
  | .ibsta _ _ => s
  | .ibcnt _ _ => s
  | .timeout _ _ _ => s
  | .version _ => s

/-- Fold a sequence of facade operations over the state. -/
def run (s : AsyncGpibState) : List FacadeOp → AsyncGpibState
  | [] => s
  | op :: ops => run (step s op) ops

/-! ## Helper lemmas about the timeout quantizer -/

/-- On a table whose durations are sorted (weakly) ascending, the scan of
`_calculate_timeout_value` returns the first entry representing at least the
requested duration, which is therefore one of minimal duration among all
admissible entries. -/
theorem timeout_loop_first (t : ℚ) :
    ∀ l : List (Nat × ℚ), l.Pairwise (fun a b => a.2 ≤ b.2) →
      (∃ p ∈ l, t ≤ p.2) →
      ∃ p ∈ l, timeout_loop t l = p.1 ∧ t ≤ p.2 ∧ ∀ q ∈ l, t ≤ q.2 → p.2 ≤ q.2 := by
  intro l
  induction l with
  | nil => intro _ hex; simp at hex
  | cons hd tl ih =>
    intro hsort hex
    obtain ⟨k, v⟩ := hd
    rcases List.pairwise_cons.mp hsort with ⟨hhd, htl⟩
    by_cases hle : t ≤ v
    · refine ⟨(k, v), List.mem_cons_self _ _, ?_, hle, ?_⟩
      · simp [timeout_loop, hle]
      · intro q hq htq
        rcases List.mem_cons.mp hq with rfl | hq'
        · exact le_refl _
        · exact hhd q hq'
    · have hex' : ∃ p ∈ tl, t ≤ p.2 := by
        rcases hex with ⟨p, hp, htp⟩
        rcases List.mem_cons.mp hp with rfl | hp'
        · exact absurd htp hle
        · exact ⟨p, hp', htp⟩
      rcases ih htl hex' with ⟨p, hp, heq, htp, hmin⟩
      refine ⟨p, List.mem_cons_of_mem _ hp, ?_, htp, ?_⟩
      · simpa [timeout_loop, hle] using heq
      · intro q hq htq
        rcases List.mem_cons.mp hq with rfl | hq'
        · exact absurd htq hle
        · exact hmin q hq' htq

/-- If no table entry represents at least the requested duration, the scan
falls through to `T1000s`. -/
theorem timeout_loop_fallback (t : ℚ) :
    ∀ l : List (Nat × ℚ), (∀ p ∈ l, p.2 < t) → timeout_loop t l = T1000s := by
  intro l
  induction l with
  | nil => intro _; rfl
  | cons hd tl ih =>
    intro hlt
    obtain ⟨k, v⟩ := hd
    have hv : v < t := hlt (k, v) (List.mem_cons_self _ _)
    have : ¬ t ≤ v := not_le.mpr hv
    simp only [timeout_loop, ge_iff_le, this, if_false]
    exact ih fun p hp => hlt p (List.mem_cons_of_mem _ hp)

/-- The duration represented by the scan's result is at least `c` whenever
every table duration is at least `c` (and `c` is below the `T1000s` fallback
duration), provided table codes read back faithfully through
`code_duration`. -/
theorem timeout_loop_duration_lb (t c : ℚ) (hc : c ≤ 1000) :
    ∀ l : List (Nat × ℚ), (∀ p ∈ l, c ≤ p.2) → (∀ p ∈ l, code_duration p.1 = p.2) →
      c ≤ code_duration (timeout_loop t l) := by
  intro l
  induction l with
  | nil =>
    intro _ _
    have h1000 : code_duration T1000s = 1000 := by rfl
    simpa [timeout_loop, h1000] using hc
  | cons hd tl ih =>
    intro hlb hfaith
    obtain ⟨k, v⟩ := hd
    by_cases hle : t ≤ v
    · have : code_duration k = v := hfaith (k, v) (List.mem_cons_self _ _)
      simp only [timeout_loop, ge_iff_le, hle, if_true]
      rw [this]
      exact hlb (k, v) (List.mem_cons_self _ _)
    · simp only [timeout_loop, ge_iff_le, hle, if_false]
      exact ih (fun p hp => hlb p (List.mem_cons_of_mem _ hp))
        (fun p hp => hfaith p (List.mem_cons_of_mem _ hp))

/-- Monotonicity of the scan over a sorted table whose durations are bounded
by the `T1000s` fallback duration. -/
theorem timeout_loop_mono (t1 t2 : ℚ) (h12 : t1 ≤ t2) :
    ∀ l : List (Nat × ℚ), l.Pairwise (fun a b => a.2 ≤ b.2) →
      (∀ p ∈ l, p.2 ≤ 1000) → (∀ p ∈ l, code_duration p.1 = p.2) →
      code_duration (timeout_loop t1 l) ≤ code_duration (timeout_loop t2 l) := by
  intro l
  induction l with
  | nil => intro _ _ _; exact le_refl _
  | cons hd tl ih =>
    intro hsort hub hfaith
    obtain ⟨k, v⟩ := hd
    rcases List.pairwise_cons.mp hsort with ⟨hhd, htl⟩
    by_cases h2 : t2 ≤ v
    · have h1 : t1 ≤ v := le_trans h12 h2
      simp [timeout_loop, h1, h2]
    · by_cases h1 : t1 ≤ v
      · have hkv : code_duration k = v := hfaith (k, v) (List.mem_cons_self _ _)
        simp only [timeout_loop, ge_iff_le, h1, h2, if_true, if_false]
        rw [hkv]
        exact timeout_loop_duration_lb t2 v (hub (k, v) (List.mem_cons_self _ _)) tl
          (fun p hp => hhd p hp)
          (fun p hp => hfaith p (List.mem_cons_of_mem _ hp))
      · simp only [timeout_loop, ge_iff_le, h1, h2, if_false]
        exact ih htl (fun p hp => hub p (List.mem_cons_of_mem _ hp))
          (fun p hp => hfaith p (List.mem_cons_of_mem _ hp))

/-- The `TIMEOUT_VALUES` table is (weakly) ascending in its durations. -/
theorem TIMEOUT_VALUES_sorted : TIMEOUT_VALUES.Pairwise (fun a b => a.2 ≤ b.2) := by
  simp only [TIMEOUT_VALUES, List.pairwise_cons, List.mem_cons, List.not_mem_nil,
    List.mem_singleton, List.forall_mem_cons, List.forall_mem_nil]
  norm_num

/-- Every duration of the `TIMEOUT_VALUES` table is at most 1000 seconds. -/
theorem TIMEOUT_VALUES_ub : ∀ p ∈ TIMEOUT_VALUES, p.2 ≤ (1000 : ℚ) := by
  simp only [TIMEOUT_VALUES, List.forall_mem_cons, List.forall_mem_nil]
  norm_num

/-- Reading a table code back through `code_duration` recovers the duration
the table pairs it with (the codes are pairwise distinct). -/
theorem TIMEOUT_VALUES_faithful : ∀ p ∈ TIMEOUT_VALUES, code_duration p.1 = p.2 := by
  simp only [TIMEOUT_VALUES, List.forall_mem_cons, List.forall_mem_nil]
  refine ⟨rfl, rfl, rfl, rfl, rfl, rfl, rfl, rfl, rfl, rfl, rfl, rfl, rfl, rfl, rfl, rfl, rfl,
    List.forall_mem_nil _⟩

/-! ## Concrete states used by witnesses and counterexamples -/

/-- The state of `AsyncGpib()` constructed with the source's default
arguments (`name="gpib0"`, `pad=None`, `sad=0`, `timeout=10.0`,
`send_eoi=True`, `eos_mode=EosType.NONE`, `eos_character=None`):
disconnected, no handle, no pool. -/
def defaultState : AsyncGpibState :=
  AsyncGpib.init (BoardId.str "gpib0") none 0 (some 10) true 0 none

/-- The default state after `await connect()`: handle and pool present. -/
def connectedState : AsyncGpibState := (AsyncGpib.connect defaultState).1

/-! ## Claim theorems -/

/-- C1: for a non-negative requested timeout, `_calculate_timeout_value`
returns the code of a `TIMEOUT_VALUES` entry whose duration is at least the
request and minimal among all such entries; if every table duration is below
the request (e.g. for 2000 s) it returns `T1000s`; and a `None` request maps
to `TNONE`. -/
theorem calculate_timeout_value_spec (t : ℚ) (ht : 0 ≤ t) :
    calculate_timeout_value none = TNONE ∧
    ((∃ p ∈ TIMEOUT_VALUES, t ≤ p.2) →
      ∃ p ∈ TIMEOUT_VALUES, calculate_timeout_value (some t) = p.1 ∧ t ≤ p.2 ∧
        ∀ q ∈ TIMEOUT_VALUES, t ≤ q.2 → p.2 ≤ q.2) ∧
    ((∀ p ∈ TIMEOUT_VALUES, p.2 < t) → calculate_timeout_value (some t) = T1000s) := by
  refine ⟨rfl, ?_, ?_⟩
  · intro hex
    simpa [calculate_timeout_value] using
      timeout_loop_first t TIMEOUT_VALUES TIMEOUT_VALUES_sorted hex
  · intro hall
    simpa [calculate_timeout_value] using timeout_loop_fallback t TIMEOUT_VALUES hall

/-- C1 witness: the quantizer contract instantiated at the concrete request
of 2000 seconds (which exceeds every table entry). -/
theorem calculate_timeout_value_spec_witness :
    (0 ≤ (2000 : ℚ)) ∧
    (calculate_timeout_value none = TNONE ∧
     ((∃ p ∈ TIMEOUT_VALUES, (2000 : ℚ) ≤ p.2) →
       ∃ p ∈ TIMEOUT_VALUES, calculate_timeout_value (some 2000) = p.1 ∧ (2000 : ℚ) ≤ p.2 ∧
         ∀ q ∈ TIMEOUT_VALUES, (2000 : ℚ) ≤ q.2 → p.2 ≤ q.2) ∧
     ((∀ p ∈ TIMEOUT_VALUES, p.2 < (2000 : ℚ)) →
       calculate_timeout_value (some 2000) = T1000s)) :=
  ⟨by norm_num, calculate_timeout_value_spec 2000 (by norm_num)⟩

/-- C7: the timeout quantizer is monotone — a larger requested duration is
never mapped to a code representing a smaller duration. -/
theorem quantizer_monotone (d1 d2 : ℚ) (h0 : 0 ≤ d1) (h12 : d1 ≤ d2) :
    code_duration (calculate_timeout_value (some d1)) ≤
      code_duration (calculate_timeout_value (some d2)) :=
  timeout_loop_mono d1 d2 h12 TIMEOUT_VALUES TIMEOUT_VALUES_sorted TIMEOUT_VALUES_ub
    TIMEOUT_VALUES_faithful

/-- C7 witness: monotonicity instantiated at the concrete pair 1/2 s ≤ 20 s. -/
theorem quantizer_monotone_witness :
    0 ≤ (1 / 2 : ℚ) ∧ (1 / 2 : ℚ) ≤ 20 ∧
    code_duration (calculate_timeout_value (some (1 / 2))) ≤
      code_duration (calculate_timeout_value (some 20)) :=
  ⟨by norm_num, by norm_num, quantizer_monotone (1 / 2) 20 (by norm_num) (by norm_num)⟩

/-- C2 counterexample: a facade operation (here `write` on a connected
instance) whose driver call returns normally while the status flags have the
timeout bit set returns its value instead of raising
`asyncio.TimeoutError` — the wrapper only consults the status in its except
branch, so the claimed "regardless of whether the driver call raised or
returned normally" fails. -/
theorem timeout_translation_cex :
    AsyncGpib.write connectedState [] (.ok ()) TIMO = .ok () := rfl

/-- C2 amended: the facade raises `asyncio.TimeoutError` when the driver call
raised a `gpib.GpibError` and the subsequently read status flags have the
timeout bit set; a driver call that returns normally has its value returned
unchanged without consulting the status — except for `wait`, whose explicit
status read-back raises `asyncio.TimeoutError` on a normal return as well. -/
theorem timeout_translation_amended :
    (∀ (α : Type) (hdl : GpibHandle) (e : GpibError) (st : Nat), st &&& TIMO ≠ 0 →
      @AsyncGpib.wrapper α (some hdl) (.error e) st = .error (.timeoutError "")) ∧
    (∀ (α : Type) (hdl : GpibHandle) (v : α) (st : Nat),
      @AsyncGpib.wrapper α (some hdl) (.ok v) st = .ok v) ∧
    (∀ (s : AsyncGpibState) (hdl : GpibHandle) (em st1 st2 stv : Nat),
      s.device = some hdl → stv &&& TIMO ≠ 0 →
      AsyncGpib.wait s em (.ok ()) st1 (.ok stv) st2 =
        .error (.timeoutError "Timeout waiting for event.")) := by
  refine ⟨?_, ?_, ?_⟩
  · intro α hdl e st hst
    simp [AsyncGpib.wrapper, hst]
  · intro α hdl v st
    rfl
  · intro s hdl em st1 st2 stv hdev hstv
    simp [AsyncGpib.wait, AsyncGpib.wrapper, hdev, hstv]

/-- C2 amended witness: the three branches instantiated on the connected
default state, a driver error with status `TIMO`, a normal return, and a
`wait` whose status read-back returns `TIMO`. -/
theorem timeout_translation_amended_witness :
    ((TIMO &&& TIMO ≠ 0) ∧
      @AsyncGpib.wrapper Unit (some ⟨BoardId.str "gpib0", none, 0, T10s, true, 0⟩)
        (.error ⟨7⟩) TIMO = .error (.timeoutError "")) ∧
    @AsyncGpib.wrapper Nat (some ⟨BoardId.str "gpib0", none, 0, T10s, true, 0⟩) (.ok 5) TIMO = .ok 5 ∧
    AsyncGpib.wait connectedState 0 (.ok ()) 0 (.ok TIMO) 0 =
      .error (.timeoutError "Timeout waiting for event.") :=
  ⟨⟨by decide,
    timeout_translation_amended.1 Unit ⟨BoardId.str "gpib0", none, 0, T10s, true, 0⟩ ⟨7⟩ TIMO
      (by decide)⟩,
   timeout_translation_amended.2.1 Nat ⟨BoardId.str "gpib0", none, 0, T10s, true, 0⟩ 5 TIMO,
   timeout_translation_amended.2.2 connectedState
     ⟨BoardId.str "gpib0", none, 0, connectedState.timeout, true, 0⟩ 0 0 0 TIMO rfl (by decide)⟩

/-- C3: when the driver call raises a `gpib.GpibError` and the status flags
read afterwards have the timeout bit clear, the wrapper — the single
classification point every facade operation funnels through — re-raises
exactly that error object, unwrapped. -/
theorem gpib_error_passthrough {α : Type} (hdl : GpibHandle) (e : GpibError) (st : Nat)
    (hclear : st &&& TIMO = 0) :
    @AsyncGpib.wrapper α (some hdl) (.error e) st = .error (.gpibError e) := by
  simp [AsyncGpib.wrapper, hclear]

/-- C3 witness: passthrough of the concrete error object 42 under the
all-clear status word 0. -/
theorem gpib_error_passthrough_witness :
    ((0 : Nat) &&& TIMO = 0) ∧
    @AsyncGpib.wrapper Unit (some ⟨BoardId.str "gpib0", none, 0, T10s, true, 0⟩) (.error ⟨42⟩) 0 =
      .error (.gpibError ⟨42⟩) :=
  ⟨by decide,
   gpib_error_passthrough ⟨BoardId.str "gpib0", none, 0, T10s, true, 0⟩ ⟨42⟩ 0 (by decide)⟩

/-- C4: `wait` submits the driver's wait call and then reads the status back
with a second driver round-trip; when the wait call returned normally and the
read-back status has the timeout bit set, it raises
`asyncio.TimeoutError("Timeout waiting for event.")`. -/
theorem wait_double_check (s : AsyncGpibState) (hdl : GpibHandle) (em st1 st2 stv : Nat)
    (hdev : s.device = some hdl) (htimo : stv &&& TIMO ≠ 0) :
    AsyncGpib.wait s em (.ok ()) st1 (.ok stv) st2 =
      .error (.timeoutError "Timeout waiting for event.") := by
  simp [AsyncGpib.wait, AsyncGpib.wrapper, hdev, htimo]

/-- C4 witness: the double-check firing on the connected default state with
the status read-back returning exactly the `TIMO` bit. -/
theorem wait_double_check_witness :
    connectedState.device =
      some ⟨BoardId.str "gpib0", none, 0, connectedState.timeout, true, 0⟩ ∧
    (TIMO &&& TIMO ≠ 0) ∧
    AsyncGpib.wait connectedState 8 (.ok ()) 0 (.ok TIMO) 0 =
      .error (.timeoutError "Timeout waiting for event.") :=
  ⟨rfl, by decide,
   wait_double_check connectedState ⟨BoardId.str "gpib0", none, 0, connectedState.timeout, true, 0⟩
     8 0 0 TIMO rfl (by decide)⟩

/-- C5 counterexample: `close` invoked on a freshly constructed (never
connected) instance raises `AssertionError` from
`assert self.__device is not None` instead of being a no-op. -/
theorem close_disconnected_cex :
    (AsyncGpib.close defaultState (.ok ()) 0).2.1 = .error .assertionError := rfl

/-- C5 amended: calling `close` (or `disconnect`) without a prior connect, or
a second time in a row, raises `AssertionError` — not a silent no-op — while
performing no teardown call and leaving the state (handle still absent)
unchanged; a `close` on a connected instance whose driver close succeeds
returns normally and leaves the handle and pool absent. -/
theorem close_amended :
    (∀ (s : AsyncGpibState) (o : Except GpibError Unit) (st : Nat), s.device = none →
      AsyncGpib.close s o st = (s, .error .assertionError, []) ∧
      AsyncGpib.disconnect s o st = (s, .error .assertionError, [])) ∧
    (∀ (s : AsyncGpibState) (st st2 : Nat) (o2 : Except GpibError Unit),
      s.device.isSome = true → s.threadpool.isSome = true →
      (AsyncGpib.close s (.ok ()) st).1.device = none ∧
      (AsyncGpib.close s (.ok ()) st).2.1 = .ok () ∧
      AsyncGpib.close (AsyncGpib.close s (.ok ()) st).1 o2 st2 =
        ((AsyncGpib.close s (.ok ()) st).1, .error .assertionError, [])) := by
  constructor
  · intro s o st h
    constructor <;> simp [AsyncGpib.close, AsyncGpib.disconnect, h]
  · intro s st st2 o2 hd hp
    rcases Option.isSome_iff_exists.mp hd with ⟨d, hdev⟩
    rcases Option.isSome_iff_exists.mp hp with ⟨p, hpool⟩
    refine ⟨?_, ?_, ?_⟩ <;>
      simp [AsyncGpib.close, AsyncGpib.wrapper, hdev, hpool]

/-- C5 amended witness: the never-connected default state raises on `close`;
after a successful `close` of the connected default state the handle is
absent and a repeated `close` raises. -/
theorem close_amended_witness :
    (defaultState.device = none ∧
      AsyncGpib.close defaultState (.ok ()) 0 = (defaultState, .error .assertionError, [])) ∧
    (connectedState.device.isSome = true ∧ connectedState.threadpool.isSome = true ∧
      (AsyncGpib.close connectedState (.ok ()) 0).1.device = none ∧
      AsyncGpib.close (AsyncGpib.close connectedState (.ok ()) 0).1 (.ok ()) 0 =
        ((AsyncGpib.close connectedState (.ok ()) 0).1, .error .assertionError, [])) :=
  ⟨⟨rfl, (close_amended.1 defaultState (.ok ()) 0 rfl).1⟩,
   ⟨rfl, rfl,
    (close_amended.2 connectedState 0 0 (.ok ()) rfl rfl).1,
    (close_amended.2 connectedState 0 0 (.ok ()) rfl rfl).2.2⟩⟩

/-- C6 counterexample: `version` is a static method with no device check —
invoked on a never-connected instance it succeeds instead of failing fast
with a not-connected condition. -/
theorem version_no_connection_check_cex :
    AsyncGpib.version defaultState "4.3.4" = .ok "4.3.4" := rfl

/-- C6 amended: every facade bus-operation method except `version` fails
fast with `AssertionError` when no driver handle is present, for every
possible driver oracle (so before any work reaches the dispatcher);
`version` performs no connection check and succeeds in any state. -/
theorem not_connected_fail_fast :
    (∀ (s : AsyncGpibState), s.device = none →
      (∀ cmd o st, AsyncGpib.command s cmd o st = .error .assertionError) ∧
      (∀ option value o st, AsyncGpib.config s option value o st = .error .assertionError) ∧
      (∀ o st, AsyncGpib.interface_clear s o st = .error .assertionError) ∧
      (∀ cmd o st, AsyncGpib.write s cmd o st = .error .assertionError) ∧
      (∀ length o st, AsyncGpib.read s length o st = .error .assertionError) ∧
      (∀ p sd o st, AsyncGpib.listener s p sd o st = .error .assertionError) ∧
      (∀ o st, AsyncGpib.lines s o st = .error .assertionError) ∧
      (∀ option o st, AsyncGpib.ask s option o st = .error .assertionError) ∧
      (∀ o st, AsyncGpib.clear s o st = .error .assertionError) ∧
      (∀ em o1 st1 o2 st2, AsyncGpib.wait s em o1 st1 o2 st2 = .error .assertionError) ∧
      (∀ o st, AsyncGpib.serial_poll s o st = .error .assertionError) ∧
      (∀ o st, AsyncGpib.trigger s o st = .error .assertionError) ∧
      (∀ en o st, AsyncGpib.remote_enable s en o st = .error .assertionError) ∧
      (∀ o st, AsyncGpib.ibloc s o st = .error .assertionError) ∧
      (∀ o st, AsyncGpib.ibsta s o st = .error .assertionError) ∧
      (∀ o st, AsyncGpib.ibcnt s o st = .error .assertionError) ∧
      (∀ v o st, AsyncGpib.timeout s v o st = .error .assertionError)) ∧
    (∀ (s : AsyncGpibState) (lib : String), AsyncGpib.version s lib = .ok lib) := by
  refine ⟨fun s h => ?_, fun s lib => rfl⟩
  refine ⟨?_, ?_, ?_, ?_, ?_, ?_, ?_, ?_, ?_, ?_, ?_, ?_, ?_, ?_, ?_, ?_, ?_⟩ <;>
    intros <;>
    simp [AsyncGpib.command, AsyncGpib.config, AsyncGpib.interface_clear, AsyncGpib.write,
      AsyncGpib.read, AsyncGpib.listener, AsyncGpib.lines, AsyncGpib.ask, AsyncGpib.clear,
      AsyncGpib.wait, AsyncGpib.serial_poll, AsyncGpib.trigger, AsyncGpib.remote_enable,
      AsyncGpib.ibloc, AsyncGpib.ibsta, AsyncGpib.ibcnt, AsyncGpib.timeout, h]

/-- C6 amended witness: on the never-connected default state, `write` fails
fast with the assertion failure while `version` succeeds. -/
theorem not_connected_fail_fast_witness :
    AsyncGpib.write defaultState [] (.ok ()) 0 = .error .assertionError ∧
    AsyncGpib.version defaultState "1.0" = .ok "1.0" :=
  ⟨(not_connected_fail_fast.1 defaultState rfl).2.2.2.1 [] (.ok ()) 0,
   not_connected_fail_fast.2 defaultState "1.0"⟩

/-- Helper: whatever `close` does (assertion failure, driver failure, or
successful teardown), the stored identity triple is untouched. -/
theorem close_fst_frame (s : AsyncGpibState) (o : Except GpibError Unit) (st : Nat) :
    (AsyncGpib.close s o st).1.name = s.name ∧
    (AsyncGpib.close s o st).1.pad = s.pad ∧
    (AsyncGpib.close s o st).1.sad = s.sad := by
  unfold AsyncGpib.close
  cases hd : s.device with
  | none => exact ⟨rfl, rfl, rfl⟩
  | some d =>
    cases hp : s.threadpool with
    | none => exact ⟨rfl, rfl, rfl⟩
    | some p =>
      cases hw : AsyncGpib.wrapper (some d) o st with
      | error e => exact ⟨rfl, rfl, rfl⟩
      | ok u => exact ⟨rfl, rfl, rfl⟩

/-- Helper: a single facade operation never changes the stored identity
triple (`self.__name`, `self.__pad`, `self.__sad`). -/
theorem step_preserves_identity (s : AsyncGpibState) (op : FacadeOp) :
    (step s op).name = s.name ∧ (step s op).pad = s.pad ∧ (step s op).sad = s.sad := by
  cases op
  case connect => exact ⟨rfl, rfl, rfl⟩
  case close o st => exact close_fst_frame s o st
  case disconnect o st => exact close_fst_frame s o st
  all_goals exact ⟨rfl, rfl, rfl⟩

/-- Helper: `step_preserves_identity` lifted to operation sequences. -/
theorem run_preserves_identity (ops : List FacadeOp) :
    ∀ s : AsyncGpibState,
      (run s ops).name = s.name ∧ (run s ops).pad = s.pad ∧ (run s ops).sad = s.sad := by
  induction ops with
  | nil => exact fun s => ⟨rfl, rfl, rfl⟩
  | cons op ops ih =>
    intro s
    rcases ih (step s op) with ⟨h1, h2, h3⟩
    rcases step_preserves_identity s op with ⟨g1, g2, g3⟩
    exact ⟨h1.trans g1, h2.trans g2, h3.trans g3⟩

/-- C8: the `id`, `pad` and `sad` properties return exactly the constructor
arguments after any sequence of facade operations — the identity triple is
fixed at construction and never mutated. -/
theorem identity_immutable (name : BoardId) (p : Option Int) (sd : Int) (t : Option ℚ)
    (se : Bool) (em : Nat) (ec : Option Nat) (ops : List FacadeOp) :
    AsyncGpib.id (run (AsyncGpib.init name p sd t se em ec) ops) = name ∧
    AsyncGpib.pad (run (AsyncGpib.init name p sd t se em ec) ops) = p ∧
    AsyncGpib.sad (run (AsyncGpib.init name p sd t se em ec) ops) = sd := by
  rcases run_preserves_identity ops (AsyncGpib.init name p sd t se em ec) with ⟨h1, h2, h3⟩
  exact ⟨h1, h2, h3⟩

/-- C10: `connect` on an already connected instance does not fail fast: it
overwrites the device reference with a handle freshly built from the stored
configuration and the pool reference with a fresh single-worker pool, and
issues no teardown call against the old handle or pool (they are discarded
without `close`/`shutdown`). -/
theorem connect_overwrites (s : AsyncGpibState) (h : s.device.isSome = true) :
    (AsyncGpib.connect s).1.device =
      some { name := s.name, pad := s.pad, sad := s.sad, timeout := s.timeout,
             send_eoi := s.send_eoi, eos_mode := s.eos_mode } ∧
    (AsyncGpib.connect s).1.threadpool = some { max_workers := 1 } ∧
    (AsyncGpib.connect s).2 = [] :=
  ⟨rfl, rfl, rfl⟩

/-- C10 witness: reconnecting the already connected default state. -/
theorem connect_overwrites_witness :
    connectedState.device.isSome = true ∧
    ((AsyncGpib.connect connectedState).1.device =
      some { name := connectedState.name, pad := connectedState.pad,
             sad := connectedState.sad, timeout := connectedState.timeout,
             send_eoi := connectedState.send_eoi, eos_mode := connectedState.eos_mode } ∧
     (AsyncGpib.connect connectedState).1.threadpool = some { max_workers := 1 } ∧
     (AsyncGpib.connect connectedState).2 = []) :=
  ⟨rfl, connect_overwrites connectedState rfl⟩

end AsyncGpibSpec
